import Mathlib

/-!
Verification development for the prompt-library evaluation utilities
(`utils.py`): model invokers, multi-model fan-out, template-variable
validation, exact-match evaluation, and the LLM-judge scoring pipeline.

Strings are modelled as `String` / `List Char`; Python string primitives
(`str.split`, `str.replace`, `str.strip`, `str.lower`, the regex
`\d+(?:\.\d+)?` scanner of `re.findall`) are defined below over character
lists with Python's semantics.  Numeric scores are modelled as `ℚ` (the
concrete values arising here — quarters, eighths — are exact in both
binary floating point and `ℚ`).  The HTTP transport, `json.loads`, and
the jinja2 template parser are external collaborators and are taken as
parameters of the functions that call them.
-/

namespace PromptLib

/-- Python `sep in s` (substring membership) over character lists. -/
def occursIn (sep : List Char) : List Char → Bool
  | [] => sep.isEmpty
  | c :: t => sep.isPrefixOf (c :: t) || occursIn sep t

/-- The text strictly before the first occurrence of `sep` in `s`
(the whole of `s` when `sep` does not occur). -/
def beforeFirst (sep : List Char) : List Char → List Char
  | [] => []
  | c :: t => if sep.isPrefixOf (c :: t) then [] else c :: beforeFirst sep t

/-- The text strictly after the first occurrence of `sep` in `s`
(`[]` when `sep` does not occur). -/
def afterFirst (sep : List Char) : List Char → List Char
  | [] => []
  | c :: t => if sep.isPrefixOf (c :: t) then (c :: t).drop sep.length else afterFirst sep t

/-- Fuelled worker for `pySplit`.  One unit of fuel is spent per separator
occurrence; each occurrence consumes at least one character of the input,
so the fuel supplied by `pySplit` is always sufficient. -/
def pySplitF (sep : List Char) : Nat → List Char → List (List Char)
  | 0, s => [s]
  | n + 1, s =>
    if occursIn sep s then beforeFirst sep s :: pySplitF sep n (afterFirst sep s)
    else [s]

/-- Python `s.split(sep)` for a non-empty separator: the maximal segments
between non-overlapping left-to-right occurrences of `sep`. -/
def pySplit (sep s : List Char) : List (List Char) :=
  pySplitF sep (s.length + 1) s

/-- Python `s.replace(old, new)`: replace every non-overlapping occurrence
left to right, the identity when `old` does not occur. -/
def pyReplace (old new s : List Char) : List Char :=
  List.intercalate new (pySplit old s)

/-- Fuelled worker for `findNumerics`; fuel bounds the number of characters
consumed, so `s.length` fuel is always sufficient. -/
def findNumericsF : Nat → List Char → List (List Char)
  | 0, _ => []
  | _ + 1, [] => []
  | n + 1, c :: t =>
    if c.isDigit then
      let ds := (c :: t).takeWhile Char.isDigit
      let rest := (c :: t).dropWhile Char.isDigit
      match rest with
      | '.' :: r2 =>
        match r2 with
        | d :: _ =>
          if d.isDigit then
            (ds ++ '.' :: r2.takeWhile Char.isDigit) :: findNumericsF n (r2.dropWhile Char.isDigit)
          else ds :: findNumericsF n rest
        | [] => ds :: findNumericsF n rest
      | _ => ds :: findNumericsF n rest
    else findNumericsF n t

/-- Python `re.findall(r"\d+(?:\.\d+)?", s)`: the left-to-right maximal
matches of an unsigned integer optionally followed by a decimal part. -/
def findNumerics (s : List Char) : List (List Char) :=
  findNumericsF s.length s

/-- Value of a list of ASCII digits read in base 10. -/
def natOfDigits (l : List Char) : Nat :=
  l.foldl (fun n c => 10 * n + (c.toNat - 48)) 0

/-- Python `float(g)` for a string `g` matching `\d+(?:\.\d+)?`, as an
exact rational. -/
def parseNum (l : List Char) : ℚ :=
  match l.dropWhile Char.isDigit with
  | '.' :: fr =>
    (natOfDigits (l.takeWhile Char.isDigit) : ℚ) + (natOfDigits fr : ℚ) / (10 : ℚ) ^ fr.length
  | _ => (natOfDigits (l.takeWhile Char.isDigit) : ℚ)

/-- Python `min(a, b)` for numbers: the smaller argument, the first on ties. -/
def pyMin (a b : ℚ) : ℚ := if b < a then b else a

/-- Python `max(a, b)` for numbers: the larger argument, the first on ties. -/
def pyMax (a b : ℚ) : ℚ := if a < b then b else a

/-- The search window of `_extract_judge_score`: when `split_str` occurs in
`answer` this is `answer.split(split_str)[1]`, otherwise the whole of
`answer` (source lines 110–113). -/
def ratingWindow (split_str answer : List Char) : List Char :=
  if occursIn split_str answer then (pySplit split_str answer).getD 1 []
  else answer

/-- The raw numeric rating recovered by `_extract_judge_score` before
rescaling: the first regex match in the search window, if any
(source lines 114–115; `none` models the `IndexError` of
`digit_groups[0]` on an empty match list, caught by the `except`). -/
def rawJudgeScore (split_str answer : List Char) : Option ℚ :=
  ((findNumerics (ratingWindow split_str answer)).head?).map parseNum

/-- Second definition for the refinement claim C2, following the spec's
words rather than the source: the search window is *everything after the
marker's first occurrence* (the whole response when the marker is absent),
and the raw score is the first numeric match in that window. -/
def rawJudgeScoreSpecC2 (split_str answer : List Char) : Option ℚ :=
  ((findNumerics
    (if occursIn split_str answer then afterFirst split_str answer else answer)).head?).map
    parseNum

/-- Source function `_extract_judge_score(answer, split_str)` (lines 108–122): the
raw rating rescaled — `0` stays `0`, anything else becomes
`max 0 (min 1 (score / 4))`; any extraction failure yields `0`. -/
def extract_judge_score (answer split_str : String) : ℚ :=
  match rawJudgeScore split_str.data answer.data with
  | none => 0
  | some score => if score = 0 then score else pyMax 0 (pyMin 1 (score / 4))

/-- Python dict read `d[k]` / `k in d` on an insertion-ordered association
list: the first binding with the given key. -/
def dictLookup (d : List (String × String)) (k : String) : Option String :=
  (d.find? (fun p => p.1 == k)).map Prod.snd

/-- Python dict write `d[k] = v`: replaces the value of an existing key in
place, otherwise appends a new binding at the end. -/
def dictInsert (d : List (String × String)) (k v : String) : List (String × String) :=
  match d with
  | [] => [(k, v)]
  | p :: rest => if p.1 == k then (k, v) :: rest else p :: dictInsert rest k v

/-- Python `dict(pairs)`: insert every pair in order (last write wins). -/
def pyDict (ps : List (String × String)) : List (String × String) :=
  ps.foldl (fun d p => dictInsert d p.1 p.2) []

/-- Source function `test_multiple_models(urls, prompt, models)` (lines 30–35) with
the completion invoker `test_prompt_with_model` abstracted as `f`:
one invocation per pair of `zip(urls, models)`, results gathered in the
order of firing, then `dict(zip(models, results))`.  (`asyncio.gather`
preserves the positional order of its tasks.) -/
def test_multiple_models (f : String → String → String → String)
    (urls : List String) (prompt : String) (models : List String) :
    List (String × String) :=
  pyDict (models.zip ((urls.zip models).map (fun p => f p.1 prompt p.2)))

/-- Python `s.strip()`: drop leading and trailing whitespace (ASCII
whitespace; all inputs in scope are ASCII). -/
def pyStrip (l : List Char) : List Char :=
  ((l.dropWhile Char.isWhitespace).reverse.dropWhile Char.isWhitespace).reverse

/-- Python `s.lower()` (ASCII case folding; all inputs in scope are ASCII). -/
def pyLower (l : List Char) : List Char :=
  l.map Char.toLower

/-- Source function `evaluate_test_case(llm_output, expected_output)` (lines
104–105): `llm_output.strip().lower() == expected_output.strip().lower()`. -/
def evaluate_test_case (llm_output expected_output : String) : Bool :=
  pyLower (pyStrip llm_output.data) == pyLower (pyStrip expected_output.data)

/-- Minimal model of Python/JSON values, as needed by the invokers (JSON
response bodies) and the variable validator (values mappings). -/
inductive PyVal : Type where
  | vNone : PyVal
  | vBool : Bool → PyVal
  | vNum : ℚ → PyVal
  | vStr : String → PyVal
  | vList : List PyVal → PyVal
  | vDict : List (String × PyVal) → PyVal

/-- First-match lookup in a Python mapping's bindings. -/
def assocFind : List (String × PyVal) → String → Option PyVal
  | [], _ => none
  | (k0, v) :: rest, k => if k0 == k then some v else assocFind rest k

/-- Python `j[k]` on a decoded JSON value: a dict lookup raising
`KeyError(k)` — whose textual description is the quoted key — when the
key is missing, and a `TypeError` on non-dict values. -/
def pyGetItem (j : PyVal) (k : String) : Except String PyVal :=
  match j with
  | .vDict fields =>
    match assocFind fields k with
    | some v => .ok v
    | none => .error ("\x27" ++ k ++ "\x27")
  | _ => .error "value is not subscriptable"

/-- Shared response handling of both model invokers (source lines 22–27
and 64–69): take the POST outcome (response body text, or the raised
exception's description), `json.loads` the body, index the wanted field;
any exception along the way — network failure, JSON decode failure,
missing field — is caught by the `except` and returned as the string
`"Error: " ++ description`. -/
def respPipeline (outcome : Except String String)
    (loads : String → Except String PyVal) (field : String) : PyVal :=
  match outcome with
  | .error e => .vStr ("Error: " ++ e)
  | .ok body =>
    match loads body with
    | .error e => .vStr ("Error: " ++ e)
    | .ok j =>
      match pyGetItem j field with
      | .error e => .vStr ("Error: " ++ e)
      | .ok v => v

/-- Source function `test_prompt_with_model(url, prompt, model)` (lines
11–27).  The HTTP POST (with the fixed completion-mode options) is
abstracted as `net url prompt model`; `json.loads` as `loads`.  On
success the JSON's `response` field is returned; on any exception the
string `"Error: " ++ description`. -/
def test_prompt_with_model (net : String → String → String → Except String String)
    (loads : String → Except String PyVal) (url prompt model : String) : PyVal :=
  respPipeline (net url prompt model) loads "response"

/-- Chat-endpoint derivation of `test_prompt_with_chat_model` (source
line 52): `url.replace("/generate", "/chat")`. -/
def chat_url (url : String) : String :=
  String.mk (pyReplace "/generate".data "/chat".data url.data)

/-- Source function `test_prompt_with_chat_model(url, messages, model)`
(lines 38–69): posts the messages (modelled as `(role, content)` pairs)
to `chat_url url` with the fixed chat-mode options, and returns the
JSON's `message` field, with the same error-as-string policy. -/
def test_prompt_with_chat_model
    (net : String → List (String × String) → String → Except String String)
    (loads : String → Except String PyVal) (url : String)
    (messages : List (String × String)) (model : String) : PyVal :=
  respPipeline (net (chat_url url) messages model) loads "message"

/-- Python truthiness of the validator's offence test (source lines
95–99): the variable is missing from the mapping, or maps to `""`
(Python `values[v] == ""` is true exactly of the string `""`), or maps
to `None`. -/
def varOffending (values : List (String × PyVal)) (v : String) : Bool :=
  match assocFind values v with
  | none => true
  | some x =>
    (match x with | .vStr s => s == "" | _ => false)
    || (match x with | .vNone => true | _ => false)

/-- Loop of `validate_variables_with_template` (source lines 94–101):
return `(False, var)` at the first offending variable in iteration
order, `(True, "")` when none offends. -/
def validateLoop (values : List (String × PyVal)) : List String → Bool × String
  | [] => (true, "")
  | v :: rest => if varOffending values v then (false, v) else validateLoop values rest

/-- Decoding step of the validator (source lines 91–92): a string input
is first decoded by `loads` (modelling `json.loads`, whose decode failure
propagates and is out of this claim's scope); a mapping is used as is. -/
def pyValuesOf (loads : String → List (String × PyVal))
    (values : List (String × PyVal) ⊕ String) : List (String × PyVal) :=
  match values with
  | .inl d => d
  | .inr s => loads s

/-- Source function `validate_variables_with_template(values,
template_str)` (lines 88–101).  `getVars` models
`get_template_variables` (lines 72–85): the jinja2 parse-and-walk is an
external collaborator, and Python's unspecified set iteration order is
reflected in the order of the list `getVars` returns. -/
def validate_variables_with_template (loads : String → List (String × PyVal))
    (getVars : String → List String) (values : List (String × PyVal) ⊕ String)
    (template_str : String) : Bool × String :=
  validateLoop (pyValuesOf loads values) (getVars template_str)

/-- Judge prompt of `compare_strings_with_llm_judge` (source lines
133–161): the fixed rubric text with the three inputs interpolated
(instruction, system answer, expected answer). -/
def judge_prompt (original_instruction llm_output expected_output : String) : String :=
  "\nYou will be given a user_instruction, a system_answer and a expected_answer.\nYour task is to provide a \x27total rating\x27 scoring how well the system_answer answers the user instruction expressed in the user_instruction and how well the system_answer matches the expected_answer.\nGive your answer on a scale of 1 to 4, where 1 means that the system_answer is not helpful at all and does not match with the expected_answer, and 4 means that the system_answer completely and helpfully addresses the user_question and perfectly matches the expected_answer.\n\nHere is the scale you should use to build your answer:\n1: The system_answer is terrible: completely irrelevant to the user_instruction, or very partial. The system_answer is completely incorrect and does not match with the expected_answer.\n2: The system_answer is mostly not helpful: misses some key aspects of the user_instruction. The system_answer has major differences or missing key elements compared to the expected_answer.\n3: The system_answer is mostly helpful: provides support, but still could be improved. The system_answer has minor differences but maintains the core meaning compared to the expected_answer.\n4: The system_answer is excellent: relevant, direct, detailed, and addresses all the concerns raised in the user_instruction. Perfect match of system_answer and expected_answer.\n\nProvide your feedback as follows:\n\nFeedback:::\nEvaluation: (your rationale for the rating, as a text)\nTotal rating: (your rating, as a number between 1 and 4)\n\nYou MUST provide values for \x27Evaluation:\x27 and \x27Total rating:\x27 in your answer.\n\nNow here are the user_instruction, system_answer and exptected_answer.\n\nuser_instruction: "
  ++ original_instruction
  ++ "\nsystem_answer: "
  ++ llm_output
  ++ "\nexpected_answer: "
  ++ expected_output
  ++ "\n\nProvide your feedback. If you give a correct rating, I\x27ll give you 100 H100 GPUs to start your AI company.\nFeedback:::\nEvaluation: \n"

/-- Source function `compare_strings_with_llm_judge(llm_output,
expected_output, original_instruction, test_prompt_func, url, model)`
(lines 125–169): build the judge prompt, call the injected invocation
function with it, extract the judge score from the response.  An error
result of the injected call models a raised `ValueError`, which the
`except ValueError` catches, returning `0.0` (exceptions of other types
would propagate; no claim depends on those). -/
def compare_strings_with_llm_judge (llm_output expected_output original_instruction : String)
    (test_prompt_func : String → String → String → Except String String)
    (url model : String) : ℚ :=
  match test_prompt_func url (judge_prompt original_instruction llm_output expected_output)
      model with
  | .error _ => 0
  | .ok score_response => extract_judge_score score_response "Total rating:"

/-! Evaluation lemmas for the extractor.  Character-level computation is
done by `decide`; the final rational arithmetic, which the kernel does not
reduce, is bridged by the `parseNum_*` lemmas below. -/

theorem parseNum_of_dropWhile_nil (l : List Char) (h : l.dropWhile Char.isDigit = []) :
    parseNum l = (natOfDigits l : ℚ) := by
  unfold parseNum
  rw [h]
  have ht : l.takeWhile Char.isDigit = l := by
    conv_rhs => rw [← List.takeWhile_append_dropWhile (p := Char.isDigit) (l := l)]
    rw [h, List.append_nil]
  rw [ht]

theorem parseNum_of_dropWhile_dot (l fr : List Char) (h : l.dropWhile Char.isDigit = '.' :: fr) :
    parseNum l =
      (natOfDigits (l.takeWhile Char.isDigit) : ℚ) + (natOfDigits fr : ℚ) / (10 : ℚ) ^ fr.length := by
  unfold parseNum
  rw [h]
  rfl

theorem parseNum_four : parseNum ['4'] = 4 := by
  rw [parseNum_of_dropWhile_nil _ (by decide)]
  norm_num [show natOfDigits ['4'] = 4 from by decide]

theorem parseNum_three : parseNum ['3'] = 3 := by
  rw [parseNum_of_dropWhile_nil _ (by decide)]
  norm_num [show natOfDigits ['3'] = 3 from by decide]

theorem parseNum_ten : parseNum ['1', '0'] = 10 := by
  rw [parseNum_of_dropWhile_nil _ (by decide)]
  norm_num [show natOfDigits ['1', '0'] = 10 from by decide]

theorem parseNum_twoPointFive : parseNum ['2', '.', '5'] = 5 / 2 := by
  rw [parseNum_of_dropWhile_dot _ ['5'] (by decide)]
  norm_num [show natOfDigits ['5'] = 5 from by decide,
    show List.takeWhile Char.isDigit ['2', '.', '5'] = ['2'] from by decide,
    show natOfDigits ['2'] = 2 from by decide]

theorem extract_judge_score_of_head (a m : String) (g : List Char)
    (hg : (findNumerics (ratingWindow m.data a.data)).head? = some g) :
    extract_judge_score a m =
      if parseNum g = 0 then parseNum g else pyMax 0 (pyMin 1 (parseNum g / 4)) := by
  unfold extract_judge_score rawJudgeScore
  rw [hg]
  rfl

theorem extract_judge_score_of_none (a m : String)
    (hg : (findNumerics (ratingWindow m.data a.data)).head? = none) :
    extract_judge_score a m = 0 := by
  unfold extract_judge_score rawJudgeScore
  rw [hg]
  rfl

theorem extract_judge_score_good_four :
    extract_judge_score "Evaluation: good.\nTotal rating: 4" "Total rating:" = 1 := by
  rw [extract_judge_score_of_head _ _ ['4'] (by decide), parseNum_four]
  norm_num [pyMax, pyMin]

theorem extract_judge_score_twoPointFive :
    extract_judge_score "Total rating: 2.5" "Total rating:" = 5 / 8 := by
  rw [extract_judge_score_of_head _ _ ['2', '.', '5'] (by decide), parseNum_twoPointFive]
  norm_num [pyMax, pyMin]

theorem extract_judge_score_ten :
    extract_judge_score "Total rating: 10" "Total rating:" = 1 := by
  rw [extract_judge_score_of_head _ _ ['1', '0'] (by decide), parseNum_ten]
  norm_num [pyMax, pyMin]

theorem extract_judge_score_noDigits :
    extract_judge_score "no rating given" "Total rating:" = 0 := by
  rw [extract_judge_score_of_none _ _ (by decide)]

theorem extract_judge_score_minusThree :
    extract_judge_score "Total rating: -3" "Total rating:" = 3 / 4 := by
  rw [extract_judge_score_of_head _ _ ['3'] (by decide), parseNum_three]
  norm_num [pyMax, pyMin]

theorem extract_judge_score_doubleMarker :
    extract_judge_score "Total rating: Total rating: 3" "Total rating:" = 0 := by
  rw [extract_judge_score_of_none _ _ (by decide)]

theorem parseNum_nonneg (l : List Char) : 0 ≤ parseNum l := by
  unfold parseNum
  split
  · positivity
  · positivity

theorem beforeFirst_of_not_occurs (sep s : List Char) (h : occursIn sep s = false) :
    beforeFirst sep s = s := by
  induction s with
  | nil => rfl
  | cons c t ih =>
    unfold occursIn at h
    rw [Bool.or_eq_false_iff] at h
    unfold beforeFirst
    rw [if_neg (by simp [h.1]), ih h.2]

theorem pySplitF_getD_zero (sep : List Char) (n : Nat) (s : List Char) (hn : 1 ≤ n) :
    (pySplitF sep n s).getD 0 [] = beforeFirst sep s := by
  match n, hn with
  | m + 1, _ =>
    unfold pySplitF
    cases h : occursIn sep s with
    | true => simp
    | false => simp [beforeFirst_of_not_occurs sep s h]

theorem occursIn_ne_nil (sep s : List Char) (hsep : sep ≠ [])
    (h : occursIn sep s = true) : s ≠ [] := by
  intro hs
  subst hs
  unfold occursIn at h
  simp [List.isEmpty_iff] at h
  exact hsep h

theorem ratingWindow_of_occurs (split_str answer : List Char) (hsep : split_str ≠ [])
    (h : occursIn split_str answer = true) :
    ratingWindow split_str answer = beforeFirst split_str (afterFirst split_str answer) := by
  unfold ratingWindow pySplit
  rw [if_pos h]
  unfold pySplitF
  rw [if_pos h]
  have hlen : 1 ≤ answer.length :=
    List.length_pos.mpr (occursIn_ne_nil split_str answer hsep h)
  simpa using pySplitF_getD_zero split_str answer.length (afterFirst split_str answer) hlen

theorem ratingWindow_of_not_occurs (split_str answer : List Char)
    (h : occursIn split_str answer = false) :
    ratingWindow split_str answer = answer := by
  unfold ratingWindow
  rw [if_neg (by simp [h])]

/-- C1: whenever a raw numeric rating `r` is extracted from the judge
response, `_extract_judge_score` returns `0` exactly when `r = 0` and
otherwise `r / 4` clamped into `[0, 1]`; `"Evaluation: good.\nTotal
rating: 4"` yields `1`, `"Total rating: 2.5"` yields `5/8 = 0.625`,
`"Total rating: 10"` yields `1`, and the result never exceeds `1`. -/
theorem judge_rescale_spec_C1 :
    (∀ (answer split_str : String) (r : ℚ),
        rawJudgeScore split_str.data answer.data = some r →
        extract_judge_score answer split_str = if r = 0 then 0 else pyMax 0 (pyMin 1 (r / 4)))
    ∧ extract_judge_score "Evaluation: good.\nTotal rating: 4" "Total rating:" = 1
    ∧ extract_judge_score "Total rating: 2.5" "Total rating:" = 5 / 8
    ∧ extract_judge_score "Total rating: 10" "Total rating:" = 1
    ∧ (∀ (answer split_str : String), extract_judge_score answer split_str ≤ 1) := by
  refine ⟨?_, extract_judge_score_good_four, extract_judge_score_twoPointFive,
    extract_judge_score_ten, ?_⟩
  · intro answer split_str r h
    unfold extract_judge_score
    rw [h]
    dsimp only
    by_cases h0 : r = 0
    · rw [if_pos h0, if_pos h0, h0]
    · rw [if_neg h0, if_neg h0]
  · intro answer split_str
    unfold extract_judge_score
    cases h : rawJudgeScore split_str.data answer.data with
    | none => norm_num
    | some r =>
      dsimp only
      by_cases h0 : r = 0
      · rw [if_pos h0, h0]
        norm_num
      · rw [if_neg h0]
        unfold pyMax pyMin
        split_ifs <;> linarith

theorem judge_rescale_spec_C1_witness :
    extract_judge_score "Total rating: 4" "Total rating:" =
      if (4 : ℚ) = 0 then 0 else pyMax 0 (pyMin 1 (4 / 4)) := by
  have hraw : rawJudgeScore "Total rating:".data "Total rating: 4".data = some 4 := by
    unfold rawJudgeScore
    rw [show (findNumerics
      (ratingWindow "Total rating:".data "Total rating: 4".data)).head? = some ['4'] from by decide]
    show some (parseNum ['4']) = some 4
    rw [parseNum_four]
  exact judge_rescale_spec_C1.1 "Total rating: 4" "Total rating:" 4 hraw

/-- C2, amended: when the marker occurs in the response, the search window
is the segment after the marker's first occurrence and before its next
occurrence (the whole remainder when the marker occurs exactly once) —
not, as originally claimed, everything after the first occurrence; when
the marker is absent, the window is the entire response; the raw score is
the first numeric match in the window. -/
theorem rating_window_spec_C2 :
    ∀ (answer split_str : List Char), split_str ≠ [] →
      (occursIn split_str answer = true →
        ratingWindow split_str answer = beforeFirst split_str (afterFirst split_str answer))
      ∧ (occursIn split_str answer = false → ratingWindow split_str answer = answer)
      ∧ rawJudgeScore split_str answer
          = ((findNumerics (ratingWindow split_str answer)).head?).map parseNum := by
  intro answer split_str hsep
  exact ⟨ratingWindow_of_occurs split_str answer hsep,
    ratingWindow_of_not_occurs split_str answer, rfl⟩

theorem rating_window_spec_C2_witness :
    ratingWindow "Total rating:".data "Total rating: 2".data
      = beforeFirst "Total rating:".data (afterFirst "Total rating:".data "Total rating: 2".data) :=
  (rating_window_spec_C2 "Total rating: 2".data "Total rating:".data (by decide)).1 (by decide)

/-- C2, counterexample: on `"Total rating: Total rating: 3"` the claim's
window (everything after the first occurrence of the marker) contains the
numeric match `3`, so the claim predicts a raw score of `3` (and a final
score of `3/4`), but the code's window is the empty segment between the
two marker occurrences: no raw score is extracted and the result is `0`. -/
theorem rating_window_spec_C2_counterexample :
    rawJudgeScoreSpecC2 "Total rating:".data "Total rating: Total rating: 3".data = some 3
    ∧ rawJudgeScore "Total rating:".data "Total rating: Total rating: 3".data = none
    ∧ rawJudgeScore "Total rating:".data "Total rating: Total rating: 3".data
        ≠ rawJudgeScoreSpecC2 "Total rating:".data "Total rating: Total rating: 3".data
    ∧ extract_judge_score "Total rating: Total rating: 3" "Total rating:" = 0 := by
  have hspec : rawJudgeScoreSpecC2 "Total rating:".data "Total rating: Total rating: 3".data
      = some 3 := by
    unfold rawJudgeScoreSpecC2
    rw [show (findNumerics
      (if occursIn "Total rating:".data "Total rating: Total rating: 3".data then
        afterFirst "Total rating:".data "Total rating: Total rating: 3".data
      else "Total rating: Total rating: 3".data)).head? = some ['3'] from by decide]
    show some (parseNum ['3']) = some 3
    rw [parseNum_three]
  have hcode : rawJudgeScore "Total rating:".data "Total rating: Total rating: 3".data
      = none := by decide
  refine ⟨hspec, hcode, ?_, extract_judge_score_doubleMarker⟩
  rw [hspec, hcode]
  simp

/-- C5: `_extract_judge_score` never propagates a failure: when no numeric
substring occurs in the search window the result is `0`, and in particular
`"no rating given"` yields `0`. -/
theorem judge_score_failure_spec_C5 :
    (∀ (answer split_str : String),
        findNumerics (ratingWindow split_str.data answer.data) = [] →
        extract_judge_score answer split_str = 0)
    ∧ extract_judge_score "no rating given" "Total rating:" = 0 := by
  refine ⟨?_, extract_judge_score_noDigits⟩
  intro answer split_str h
  apply extract_judge_score_of_none
  rw [h]
  rfl

theorem judge_score_failure_spec_C5_witness :
    extract_judge_score "nothing here" "Total rating:" = 0 :=
  judge_score_failure_spec_C5.1 "nothing here" "Total rating:" (by decide)

/-- C10: the numeric pattern only matches unsigned digit sequences, so
every extracted raw score is nonnegative, and on `"Total rating: -3"` the
minus sign is dropped: the raw score is `3` and the result is `3/4`. -/
theorem judge_unsigned_spec_C10 :
    (∀ (answer split_str : String) (r : ℚ),
        rawJudgeScore split_str.data answer.data = some r → 0 ≤ r)
    ∧ rawJudgeScore "Total rating:".data "Total rating: -3".data = some 3
    ∧ extract_judge_score "Total rating: -3" "Total rating:" = 3 / 4 := by
  refine ⟨?_, ?_, extract_judge_score_minusThree⟩
  · intro answer split_str r h
    obtain ⟨g, _, rfl⟩ := Option.map_eq_some'.mp h
    exact parseNum_nonneg g
  · unfold rawJudgeScore
    rw [show (findNumerics
      (ratingWindow "Total rating:".data "Total rating: -3".data)).head? = some ['3'] from by decide]
    show some (parseNum ['3']) = some 3
    rw [parseNum_three]

theorem judge_unsigned_spec_C10_witness : (0 : ℚ) ≤ 3 :=
  judge_unsigned_spec_C10.1 "Total rating: -3" "Total rating:" 3
    judge_unsigned_spec_C10.2.1

theorem dictLookup_dictInsert (d : List (String × String)) (k v k' : String) :
    dictLookup (dictInsert d k v) k' = if k' = k then some v else dictLookup d k' := by
  induction d with
  | nil =>
    by_cases h : k' = k
    · simp [dictInsert, dictLookup, List.find?, h]
    · have hkk : (k == k') = false :=
        beq_eq_false_iff_ne.mpr (fun hh => h hh.symm)
      simp [dictInsert, dictLookup, List.find?, hkk, h]
  | cons p rest ih =>
    unfold dictInsert
    by_cases hp : p.1 = k
    · rw [if_pos (by simp [hp])]
      by_cases h : k' = k
      · simp [dictLookup, List.find?, h]
      · have hkk : (k == k') = false :=
          beq_eq_false_iff_ne.mpr (fun hh => h hh.symm)
        have hpk : (p.1 == k') = false :=
          beq_eq_false_iff_ne.mpr (fun hh => h ((hp ▸ hh).symm))
        simp [dictLookup, List.find?, hkk, hpk, h]
    · rw [if_neg (by simp [hp])]
      by_cases hk' : p.1 = k'
      · have h : ¬k' = k := fun hh => hp (hk'.trans hh)
        simp [dictLookup, List.find?, hk', h]
      · have hpk : (p.1 == k') = false := beq_eq_false_iff_ne.mpr hk'
        simp only [dictLookup, List.find?] at ih ⊢
        simp only [hpk]
        exact ih

theorem findQ_append {α : Type} (p : α → Bool) (l₁ l₂ : List α) :
    (l₁ ++ l₂).find? p = ((l₁.find? p).orElse (fun _ => l₂.find? p)) := by
  induction l₁ with
  | nil => simp [Option.orElse]
  | cons a t ih =>
    by_cases h : p a = true
    · simp [List.find?, h, Option.orElse]
    · simp only [List.cons_append, List.find?, Bool.not_eq_true] at *
      rw [h]
      exact ih

theorem dictLookup_foldl_dictInsert (ps : List (String × String)) (d : List (String × String))
    (k : String) :
    dictLookup (ps.foldl (fun d p => dictInsert d p.1 p.2) d) k
      = match ps.reverse.find? (fun p => p.1 == k) with
        | some p => some p.2
        | none => dictLookup d k := by
  induction ps generalizing d with
  | nil => simp
  | cons p rest ih =>
    simp only [List.foldl_cons, List.reverse_cons]
    rw [ih, findQ_append]
    cases hr : rest.reverse.find? (fun p => p.1 == k) with
    | some q => simp [Option.orElse]
    | none =>
      by_cases hp : p.1 = k
      · simp [Option.orElse, List.find?, hp, dictLookup_dictInsert]
      · have : (p.1 == k) = false := by simp [hp]
        simp [Option.orElse, List.find?, this, dictLookup_dictInsert,
          show ¬k = p.1 from fun hh => hp hh.symm]

theorem zip_map_zip {α β δ : Type} (g : α → β → δ) (as : List α) (bs : List β) :
    bs.zip ((as.zip bs).map (fun p => g p.1 p.2)) = List.zipWith (fun a b => (b, g a b)) as bs := by
  induction as generalizing bs with
  | nil => simp
  | cons a ta ih =>
    cases bs with
    | nil => simp
    | cons b tb => simp [ih]

/-- C3: the fan-out returns the Python dict built from the positional
pairing of models with the per-pair invocation results (truncating to the
shorter list, as `zip` does); a dict lookup returns the value of the
*last* matching pair, and the duplicate-model example
`urls = [u1, u2]`, `models = ["m1", "m1"]` leaves exactly the one binding
`("m1", f u2 prompt "m1")` from the second pairing. -/
theorem fan_out_spec_C3 :
    (∀ (f : String → String → String → String) (urls : List String) (prompt : String)
        (models : List String) (k : String),
        dictLookup (test_multiple_models f urls prompt models) k
          = ((List.zipWith (fun u m => (m, f u prompt m)) urls models).reverse.find?
              (fun p => p.1 == k)).map Prod.snd)
    ∧ (∀ (f : String → String → String → String) (prompt u1 u2 : String),
        test_multiple_models f [u1, u2] prompt ["m1", "m1"]
          = [("m1", f u2 prompt "m1")]) := by
  constructor
  · intro f urls prompt models k
    unfold test_multiple_models pyDict
    rw [zip_map_zip (fun u m => f u prompt m), dictLookup_foldl_dictInsert]
    cases h : (List.zipWith (fun u m => (m, f u prompt m)) urls models).reverse.find?
        (fun p => p.1 == k) with
    | some q => simp
    | none => simp [dictLookup]
  · intro f prompt u1 u2
    simp [test_multiple_models, pyDict, dictInsert]

/-- C9: `evaluate_test_case` is equality after stripping leading/trailing
whitespace and case folding; `("Paris ", "paris")` evaluates to `true`,
`("Paris", "London")` to `false`, and the check is reflexive.  The
function is pure: it is modelled as a plain function of its two inputs. -/
theorem exact_match_spec_C9 :
    (∀ a b : String, evaluate_test_case a b = true ↔
        pyLower (pyStrip a.data) = pyLower (pyStrip b.data))
    ∧ evaluate_test_case "Paris " "paris" = true
    ∧ evaluate_test_case "Paris" "London" = false
    ∧ (∀ a : String, evaluate_test_case a a = true) := by
  refine ⟨?_, by decide, by decide, ?_⟩
  · intro a b
    simp [evaluate_test_case]
  · intro a
    simp [evaluate_test_case]

theorem exact_match_spec_C9_witness :
    evaluate_test_case "Paris " "paris" = true ↔
      pyLower (pyStrip "Paris ".data) = pyLower (pyStrip "paris".data) :=
  exact_match_spec_C9.1 "Paris " "paris"

/-- C4: the completion invoker never propagates an exception to its
caller: whichever stage fails — the network call, the JSON decode, or the
`response` field access — the result is the string `"Error: "` followed
by that stage's exception description, and on full success the result is
the value of the JSON's `response` field. -/
theorem invoker_error_spec_C4 :
    ∀ (net : String → String → String → Except String String)
      (loads : String → Except String PyVal) (url prompt model : String),
      (∀ e, net url prompt model = .error e →
        test_prompt_with_model net loads url prompt model = .vStr ("Error: " ++ e))
      ∧ (∀ body e, net url prompt model = .ok body → loads body = .error e →
        test_prompt_with_model net loads url prompt model = .vStr ("Error: " ++ e))
      ∧ (∀ body j e, net url prompt model = .ok body → loads body = .ok j →
        pyGetItem j "response" = .error e →
        test_prompt_with_model net loads url prompt model = .vStr ("Error: " ++ e))
      ∧ (∀ body j v, net url prompt model = .ok body → loads body = .ok j →
        pyGetItem j "response" = .ok v →
        test_prompt_with_model net loads url prompt model = v) := by
  intro net loads url prompt model
  refine ⟨?_, ?_, ?_, ?_⟩
  · intro e h1
    simp [test_prompt_with_model, respPipeline, h1, Except.bind]
  · intro body e h1 h2
    simp [test_prompt_with_model, respPipeline, h1, h2, Except.bind]
  · intro body j e h1 h2 h3
    simp [test_prompt_with_model, respPipeline, h1, h2, h3, Except.bind]
  · intro body j v h1 h2 h3
    simp [test_prompt_with_model, respPipeline, h1, h2, h3, Except.bind]

theorem invoker_error_spec_C4_witness :
    test_prompt_with_model (fun _ _ _ => Except.error "boom")
      (fun _ => Except.ok (PyVal.vDict [])) "u" "p" "m" = PyVal.vStr ("Error: " ++ "boom") :=
  (invoker_error_spec_C4 (fun _ _ _ => Except.error "boom")
    (fun _ => Except.ok (PyVal.vDict [])) "u" "p" "m").1 "boom" rfl

/-- C8: the chat invoker derives its endpoint by substituting
`/generate` with `/chat` in the given URL; when `/generate` is absent the
URL is unchanged and the call proceeds (silently) against the original
URL. -/
theorem chat_url_spec_C8 :
    (∀ url : String, occursIn "/generate".data url.data = false → chat_url url = url)
    ∧ chat_url "http://localhost:11434/api/generate" = "http://localhost:11434/api/chat"
    ∧ (∀ (net : String → List (String × String) → String → Except String String)
        (loads : String → Except String PyVal) (url : String)
        (messages : List (String × String)) (model : String),
        occursIn "/generate".data url.data = false →
        test_prompt_with_chat_model net loads url messages model
          = respPipeline (net url messages model) loads "message") := by
  have hid : ∀ url : String, occursIn "/generate".data url.data = false → chat_url url = url := by
    intro url h
    unfold chat_url pyReplace pySplit
    unfold pySplitF
    rw [if_neg (by simp [h])]
    simp [List.intercalate]
  refine ⟨hid, by decide, ?_⟩
  intro net loads url messages model h
  unfold test_prompt_with_chat_model
  rw [hid url h]

theorem chat_url_spec_C8_witness :
    chat_url "http://host/api/complete" = "http://host/api/complete" :=
  chat_url_spec_C8.1 "http://host/api/complete" (by decide)

theorem varOffending_false_iff (values : List (String × PyVal)) (v : String) :
    varOffending values v = false ↔
      ∃ x, assocFind values v = some x ∧ x ≠ PyVal.vStr "" ∧ x ≠ PyVal.vNone := by
  unfold varOffending
  cases h : assocFind values v with
  | none => simp
  | some x => cases x <;> simp_all

theorem validateLoop_true_iff (values : List (String × PyVal)) (l : List String) :
    validateLoop values l = (true, "") ↔ ∀ v ∈ l, varOffending values v = false := by
  induction l with
  | nil => simp [validateLoop]
  | cons v rest ih =>
    by_cases h : varOffending values v = true
    · simp [validateLoop, h]
    · rw [Bool.not_eq_true] at h
      simp [validateLoop, h, ih]

theorem validateLoop_false_iff (values : List (String × PyVal)) (l : List String)
    (v0 : String) :
    validateLoop values l = (false, v0) ↔ l.find? (varOffending values) = some v0 := by
  induction l with
  | nil => simp [validateLoop, List.find?]
  | cons v rest ih =>
    by_cases h : varOffending values v = true
    · simp [validateLoop, List.find?, h]
    · rw [Bool.not_eq_true] at h
      simp [validateLoop, List.find?, h, ih]

/-- C6: the variable validator returns `(true, "")` iff every variable of
the template's extracted variable set maps, in the (possibly
JSON-decoded) values mapping, to a present value that is neither the
empty string nor `None`; otherwise it returns `(false, v)` where `v` is
the first offending variable in iteration order. -/
theorem validator_spec_C6 :
    ∀ (loads : String → List (String × PyVal)) (getVars : String → List String)
      (values : List (String × PyVal) ⊕ String) (template_str : String),
      (validate_variables_with_template loads getVars values template_str = (true, "") ↔
        ∀ v ∈ getVars template_str,
          ∃ x, assocFind (pyValuesOf loads values) v = some x
            ∧ x ≠ PyVal.vStr "" ∧ x ≠ PyVal.vNone)
      ∧ (∀ v0, validate_variables_with_template loads getVars values template_str
            = (false, v0) ↔
          (getVars template_str).find? (varOffending (pyValuesOf loads values)) = some v0) := by
  intro loads getVars values template_str
  constructor
  · rw [validate_variables_with_template, validateLoop_true_iff]
    constructor
    · intro h v hv
      exact (varOffending_false_iff _ v).mp (h v hv)
    · intro h v hv
      exact (varOffending_false_iff _ v).mpr (h v hv)
  · intro v0
    rw [validate_variables_with_template, validateLoop_false_iff]

theorem validator_spec_C6_witness :
    validate_variables_with_template (fun _ => []) (fun _ => ["name"])
      (Sum.inl [("name", PyVal.vStr "Bob")]) "Hello" = (true, "") :=
  (validator_spec_C6 (fun _ => []) (fun _ => ["name"])
      (Sum.inl [("name", PyVal.vStr "Bob")]) "Hello").1.mpr (by
    intro v hv
    simp only [List.mem_singleton] at hv
    subst hv
    exact ⟨PyVal.vStr "Bob", rfl, by simp, by simp⟩)

/-- C7: with an injected invocation function that always returns
`"Evaluation: fine\nTotal rating: 3"`, the judge comparator returns
`3/4 = 0.75` whatever texts are compared. -/
theorem judge_comparator_spec_C7 :
    ∀ (llm_output expected_output original_instruction url model : String),
      compare_strings_with_llm_judge llm_output expected_output original_instruction
        (fun _ _ _ => Except.ok "Evaluation: fine\nTotal rating: 3") url model = 3 / 4 := by
  intro llm_output expected_output original_instruction url model
  show extract_judge_score "Evaluation: fine\nTotal rating: 3" "Total rating:" = 3 / 4
  rw [extract_judge_score_of_head _ _ ['3'] (by decide), parseNum_three]
  norm_num [pyMax, pyMin]

end PromptLib
